import Mathlib

/-!
Verification of the client-side data-synchronization logic of the admin
dashboard (source: `src/pages/AdminDashboard.tsx`).

Modelling conventions for this shallow embedding:
* Timestamps are integer milliseconds (`Int`), matching `Date.now()` and the
  millisecond arithmetic of the source.
* The `subscription_end` column value is `Option Int`: `none` models the SQL
  `null` / empty-string value (both are falsy in the source's
  `editingUser.subscription_end || ...` test), and `some t` models a stored
  ISO timestamp string whose instant is `t` (the `toISOString` encoding of an
  instant is injective, so reasoning on the instant is faithful).
* Backend calls are modelled by passing their outcome in as a parameter:
  `CallResult.ok` (resolved without error field), `CallResult.backendError`
  (resolved with a non-null `error` field) and `CallResult.threw` (the awaited
  promise rejected, landing in the `catch` block).
* `toast.success` / `toast.error` notifications become explicit result
  components.
-/

namespace AdminDashboard

/-- The `AdminSession` interface: the locally persisted admin login record. -/
structure AdminSession where
  id : String
  email : String
  full_name : String
  loginTime : Int
  deriving Repr, DecidableEq

/-- The `User` interface: a cached profile row. `subscription_end` is
`Option Int` per the conventions above; fields the dashboard never computes
with are kept as strings. -/
structure User where
  id : String
  email : String
  full_name : String
  subscription_tier : String
  subscription_start : String
  subscription_end : Option Int
  document_count : Int
  created_at : String
  deriving Repr, DecidableEq

/-- The `Blog` interface: a cached blog row. -/
structure Blog where
  id : String
  title : String
  content : String
  excerpt : String
  published : Bool
  created_at : String
  deriving Repr, DecidableEq

/-- Outcome of a single awaited backend call, as seen at the call site. -/
inductive CallResult where
  | ok : CallResult
  | backendError : CallResult
  | threw : CallResult
  deriving Repr, DecidableEq

/-- Result of the session-check `useEffect` (lines 65-88): either the session
is admitted (`setAdminSession` runs and data is fetched), or access is denied
with the stored token removed (`localStorage.removeItem` then
`navigate('/admin')`), or denied with storage untouched. -/
inductive GuardResult where
  | allow (s : AdminSession) : GuardResult
  | denyRemove : GuardResult
  | denyKeep : GuardResult
  deriving Repr, DecidableEq

/-- The session-check `useEffect` (lines 65-88). The stored value under the
`adminSession` key is `none` when absent; `some none` when present but
`JSON.parse` throws (the `catch` branch); `some (some s)` when it parses to a
session record. -/
def sessionCheck (stored : Option (Option AdminSession)) (now : Int) :
    GuardResult :=
  match stored with
  | none => .denyKeep
  | some none => .denyRemove
  | some (some parsedSession) =>
    if now - parsedSession.loginTime > 24 * 60 * 60 * 1000 then .denyRemove
    else .allow parsedSession

/-- Outcome of a fetch call: `success data` models `{ data, error: null }`
(with `data` possibly `null`), the other two model a non-null `error` field
and a rejected promise. -/
inductive FetchResult (α : Type) where
  | success (data : Option (List α)) : FetchResult α
  | backendError : FetchResult α
  | threw : FetchResult α
  deriving Repr

/-- `fetchUsers` (lines 136-156): returns the new cached users list together
with whether an error toast was emitted. On success the cache is replaced by
`data || []`; on a backend error or a throw the cache is left as it was and
`toast.error` fires. -/
def fetchUsers (res : FetchResult User) (users : List User) :
    List User × Bool :=
  match res with
  | .success data => (data.getD [], false)
  | .backendError => (users, true)
  | .threw => (users, true)

/-- `fetchBlogs` (lines 158-178): same shape as `fetchUsers` for the blogs
collection. -/
def fetchBlogs (res : FetchResult Blog) (blogs : List Blog) :
    List Blog × Bool :=
  match res with
  | .success data => (data.getD [], false)
  | .backendError => (blogs, true)
  | .threw => (blogs, true)

/-- The `newUser` form state. -/
structure NewUser where
  email : String
  password : String
  full_name : String
  subscription_tier : String
  deriving Repr, DecidableEq

/-- The `newBlog` form state. -/
structure NewBlog where
  title : String
  content : String
  excerpt : String
  published : Bool
  deriving Repr, DecidableEq

/-- First step of a mutation handler: either it returns early with a
validation toast before any backend call, or it proceeds to issue one. -/
inductive OpStep where
  | validationError : OpStep
  | backendCall : OpStep
  deriving Repr, DecidableEq

/-- JavaScript `String.prototype.trim`: strip leading and trailing
whitespace. -/
def jsTrim (s : String) : String :=
  ⟨((s.data.dropWhile Char.isWhitespace).reverse.dropWhile
      Char.isWhitespace).reverse⟩

/-- JavaScript `s.substring(0, n)`: the first `n` characters of `s` (all of
`s` when it is shorter). -/
def jsSubstring (s : String) (n : Nat) : String :=
  ⟨s.data.take n⟩

/-- The validation gate of `createUser` (lines 181-184):
`if (!newUser.email.trim() || !newUser.password.trim())` shows a toast and
returns before `supabase.auth.signUp` is reached. -/
def createUserStep (newUser : NewUser) : OpStep :=
  if jsTrim newUser.email = "" || jsTrim newUser.password = "" then
    .validationError
  else .backendCall

/-- The excerpt expression shared by `createBlog` (line 328) and `updateBlog`
(line 374): `excerpt || content.substring(0, 150) + '...'`. An empty string is
the only falsy string, so a non-empty excerpt is kept verbatim. -/
def deriveExcerpt (excerpt content : String) : String :=
  if excerpt = "" then jsSubstring content 150 ++ "..." else excerpt

/-- The row sent by `createBlog`'s insert (lines 325-331). -/
structure BlogData where
  title : String
  content : String
  excerpt : String
  published : Bool
  author_id : Option String
  deriving Repr, DecidableEq

/-- `createBlog` up to the insert call (lines 312-337): after the validation
gate on trimmed title and content, the inserted row is built with the derived
excerpt and a null `author_id`. -/
def createBlog (newBlog : NewBlog) : Option BlogData :=
  if jsTrim newBlog.title = "" || jsTrim newBlog.content = "" then none
  else some
    { title := newBlog.title
      content := newBlog.content
      excerpt := deriveExcerpt newBlog.excerpt newBlog.content
      published := newBlog.published
      author_id := none }

/-- The patch sent by `updateBlog`'s update call (lines 369-376). -/
structure BlogPatch where
  title : String
  content : String
  excerpt : String
  published : Bool
  deriving Repr, DecidableEq

/-- `updateBlog` up to the update call (lines 360-377): after the same
validation gate, the submitted patch carries the derived excerpt. -/
def updateBlog (editingBlog : Blog) : Option BlogPatch :=
  if jsTrim editingBlog.title = "" || jsTrim editingBlog.content = "" then none
  else some
    { title := editingBlog.title
      content := editingBlog.content
      excerpt := deriveExcerpt editingBlog.excerpt editingBlog.content
      published := editingBlog.published }

/-- The `subscriptionEnd` expression of `updateUser` (lines 249-251):
`tier === 'premium' ? (subscription_end || now + 30 days) : null`. -/
def computeSubscriptionEnd (editingUser : User) (now : Int) : Option Int :=
  if editingUser.subscription_tier = "premium" then
    some (editingUser.subscription_end.getD (now + 30 * 24 * 60 * 60 * 1000))
  else none

/-- The patch sent by `updateUser`'s update call (lines 255-259). -/
structure UserPatch where
  full_name : String
  subscription_tier : String
  subscription_end : Option Int
  deriving Repr, DecidableEq

/-- The patch `updateUser` submits to the backend. -/
def updateUserPatch (editingUser : User) (now : Int) : UserPatch :=
  { full_name := editingUser.full_name
    subscription_tier := editingUser.subscription_tier
    subscription_end := computeSubscriptionEnd editingUser now }

/-- The record written into the cache on success (line 269):
`{ ...editingUser, subscription_end: subscriptionEnd }`. -/
def mergedUser (editingUser : User) (now : Int) : User :=
  { editingUser with subscription_end := computeSubscriptionEnd editingUser now }

/-- `updateUser` (lines 243-276) given the backend outcome: on success the
cached list is mapped in place by identifier (line 269) and a success toast
fires (`true`); on a backend error or a throw the list is untouched and an
error toast fires (`false`). -/
def updateUser (editingUser : User) (now : Int) (res : CallResult)
    (users : List User) : List User × Bool :=
  match res with
  | .ok =>
    (users.map (fun user =>
        if user.id = editingUser.id then mergedUser editingUser now else user),
      true)
  | .backendError => (users, false)
  | .threw => (users, false)

/-- Toast emitted by an operation: `none` when the handler returned before
doing anything (unconfirmed delete), otherwise success or error. -/
inductive Toast where
  | success : Toast
  | error : Toast
  deriving Repr, DecidableEq

/-- `deleteUser` (lines 278-310) given the confirmation answer and the two
backend outcomes. The profiles delete runs first; if it reports an error or
throws, an error toast fires and the cache is untouched. The follow-up
`supabase.auth.admin.deleteUser` sits in its own try/catch whose handler only
logs a warning, so for every value of `authRes` the cache is filtered by
identifier (line 304) and a success toast fires. -/
def deleteUser (confirmed : Bool) (profileRes : CallResult)
    (authRes : CallResult) (id : String) (users : List User) :
    List User × Option Toast :=
  if !confirmed then (users, none)
  else
    match profileRes with
    | .backendError => (users, some .error)
    | .threw => (users, some .error)
    | .ok =>
      match authRes with
      | _ => (users.filter (fun user => user.id != id), some .success)

/-- The derived stats (lines 436-438): `premiumUsers` counts cached users
whose tier is `premium`, and `totalRevenue = premiumUsers * 9`. -/
def premiumUsers (users : List User) : Nat :=
  (users.filter (fun user => user.subscription_tier = "premium")).length

/-- `totalRevenue` (line 438). -/
def totalRevenue (users : List User) : Nat :=
  premiumUsers users * 9

/-- Sample profile row used to instantiate witnesses. -/
def sampleUser (i tier : String) (send : Option Int) : User :=
  { id := i, email := i ++ "@x", full_name := "N", subscription_tier := tier
    subscription_start := "", subscription_end := send, document_count := 0
    created_at := "" }

/-- Sample `newBlog` form state used to instantiate witnesses. -/
def sampleNewBlog : NewBlog :=
  { title := "T", content := "hello", excerpt := "", published := false }

/-- Sample cached blog row used to instantiate witnesses. -/
def sampleEditBlog : Blog :=
  { id := "b", title := "T", content := "hello", excerpt := ""
    published := false, created_at := "" }

/-- A string of at most 150 characters is its own 150-character prefix. -/
theorem jsSubstring_of_length_le (s : String) (h : s.length ≤ 150) :
    jsSubstring s 150 = s := by
  cases s with
  | mk data =>
    simp only [String.length] at h
    simp [jsSubstring, List.take_of_length_le h]

end AdminDashboard

namespace AdminDashboard

/-- C1: on a successful edit, `updateUser` transforms the cached list in
place (no re-fetch: the result is a pointwise map of the prior cache): the
entry whose id equals the draft's id becomes the draft merged with the
submitted patch's `subscription_end`, every entry with a different id is
unchanged, the length is preserved, and success is reported. -/
theorem updateUser_success_replaces_in_place (editingUser : User) (now : Int)
    (users : List User) (i : Nat) (u : User) (h : users[i]? = some u) :
    (updateUser editingUser now .ok users).2 = true
    ∧ (updateUser editingUser now .ok users).1.length = users.length
    ∧ (u.id = editingUser.id →
        (updateUser editingUser now .ok users).1[i]? =
          some { editingUser with
                 subscription_end :=
                   (updateUserPatch editingUser now).subscription_end })
    ∧ (u.id ≠ editingUser.id →
        (updateUser editingUser now .ok users).1[i]? = some u) := by
  refine ⟨rfl, by simp [updateUser], ?_, ?_⟩
  · intro hid
    simp [updateUser, h, hid, mergedUser, updateUserPatch]
  · intro hid
    simp [updateUser, h, hid]

/-- Witness for C1 at a two-element cache: the matching entry is replaced by
the merged draft. -/
theorem updateUser_success_replaces_in_place_witness :
    (updateUser (sampleUser "a" "premium" none) 0 .ok
        [sampleUser "a" "free" none, sampleUser "b" "free" none]).1[0]? =
      some { sampleUser "a" "premium" none with
             subscription_end :=
               (updateUserPatch (sampleUser "a" "premium" none) 0).subscription_end } :=
  (updateUser_success_replaces_in_place (sampleUser "a" "premium" none) 0
      [sampleUser "a" "free" none, sampleUser "b" "free" none] 0
      (sampleUser "a" "free" none) rfl).2.2.1 rfl

/-- C2: for a stored token that parses, the guard admits exactly when
`now - loginTime` is at most 24 hours; past 24 hours it removes the token and
denies; with no stored token it denies without removing anything. -/
theorem sessionCheck_admits_iff_within_24h (s : AdminSession) (now : Int) :
    (sessionCheck (some (some s)) now = .allow s ↔
      now - s.loginTime ≤ 24 * 60 * 60 * 1000)
    ∧ (now - s.loginTime > 24 * 60 * 60 * 1000 →
        sessionCheck (some (some s)) now = .denyRemove)
    ∧ sessionCheck none now = .denyKeep := by
  refine ⟨⟨?_, ?_⟩, ?_, rfl⟩
  · intro h
    by_contra hle
    rw [not_le] at hle
    simp [sessionCheck, hle] at h
    omega
  · intro h
    simp [sessionCheck]
    omega
  · intro h
    simp [sessionCheck, h]
    omega

/-- Witness for C2: a token 1000 ms after login is admitted, and a token
25 hours after login is removed and denied. -/
theorem sessionCheck_admits_iff_within_24h_witness :
    sessionCheck (some (some ⟨"i", "e", "n", 0⟩)) 1000 =
      .allow ⟨"i", "e", "n", 0⟩
    ∧ sessionCheck (some (some ⟨"i", "e", "n", 0⟩)) (25 * 60 * 60 * 1000) =
      .denyRemove :=
  ⟨(sessionCheck_admits_iff_within_24h ⟨"i", "e", "n", 0⟩ 1000).1.mpr
      (by decide),
    (sessionCheck_admits_iff_within_24h ⟨"i", "e", "n", 0⟩
        (25 * 60 * 60 * 1000)).2.1 (by decide)⟩

/-- C3: for `createBlog` and `updateBlog`, an empty excerpt field yields the
first 150 characters of the content followed by `...` (the full content
followed by `...` whenever the content has at most 150 characters), and a
non-empty excerpt is stored unchanged. -/
theorem excerpt_default_rule (newBlog : NewBlog) (editingBlog : Blog)
    (d : BlogData) (p : BlogPatch)
    (hc : createBlog newBlog = some d) (hu : updateBlog editingBlog = some p) :
    ((newBlog.excerpt = "" →
        d.excerpt = jsSubstring newBlog.content 150 ++ "...")
      ∧ (newBlog.excerpt = "" → newBlog.content.length ≤ 150 →
          d.excerpt = newBlog.content ++ "...")
      ∧ (newBlog.excerpt ≠ "" → d.excerpt = newBlog.excerpt))
    ∧ ((editingBlog.excerpt = "" →
        p.excerpt = jsSubstring editingBlog.content 150 ++ "...")
      ∧ (editingBlog.excerpt = "" → editingBlog.content.length ≤ 150 →
          p.excerpt = editingBlog.content ++ "...")
      ∧ (editingBlog.excerpt ≠ "" → p.excerpt = editingBlog.excerpt)) := by
  unfold createBlog at hc
  unfold updateBlog at hu
  split at hc
  · exact absurd hc (by simp)
  · split at hu
    · exact absurd hu (by simp)
    · cases hc
      cases hu
      refine ⟨⟨?_, ?_, ?_⟩, ?_, ?_, ?_⟩ <;> intro he
      · simp [deriveExcerpt, he]
      · intro hlen
        simp [deriveExcerpt, he, jsSubstring_of_length_le _ hlen]
      · simp [deriveExcerpt, he]
      · simp [deriveExcerpt, he]
      · intro hlen
        simp [deriveExcerpt, he, jsSubstring_of_length_le _ hlen]
      · simp [deriveExcerpt, he]

/-- Witness for C3: a 5-character content with empty excerpt is stored as the
full content followed by the marker. -/
theorem excerpt_default_rule_witness :
    (BlogData.mk "T" "hello" (jsSubstring "hello" 150 ++ "...") false
        none).excerpt = "hello" ++ "..." :=
  (excerpt_default_rule sampleNewBlog sampleEditBlog
      (BlogData.mk "T" "hello" (jsSubstring "hello" 150 ++ "...") false none)
      (BlogPatch.mk "T" "hello" (jsSubstring "hello" 150 ++ "...") false)
      (by decide) (by decide)).1.2.1 rfl (by decide)

/-- C4: editing a record to the premium tier with no existing expiry submits
an expiry exactly 30 days (in milliseconds) after the moment of the update;
an existing expiry is kept unchanged. -/
theorem updateUser_premium_expiry (editingUser : User) (now : Int)
    (hp : editingUser.subscription_tier = "premium") :
    (editingUser.subscription_end = none →
      (updateUserPatch editingUser now).subscription_end =
        some (now + 30 * 24 * 60 * 60 * 1000))
    ∧ (∀ t : Int, editingUser.subscription_end = some t →
        (updateUserPatch editingUser now).subscription_end = some t) := by
  constructor
  · intro hn
    simp [updateUserPatch, computeSubscriptionEnd, hp, hn]
  · intro t ht
    simp [updateUserPatch, computeSubscriptionEnd, hp, ht]

/-- Witness for C4: updating a premium record with no expiry at time 0
submits an expiry of 2592000000 ms (= 30 days). -/
theorem updateUser_premium_expiry_witness :
    (updateUserPatch (sampleUser "a" "premium" none) 0).subscription_end =
      some (0 + 30 * 24 * 60 * 60 * 1000) :=
  (updateUser_premium_expiry (sampleUser "a" "premium" none) 0 rfl).1 rfl

/-- C5: editing a record to the free tier submits a cleared expiry, and the
record written back into the cache carries a cleared expiry, whatever was
stored before. -/
theorem updateUser_free_clears_expiry (editingUser : User) (now : Int)
    (hf : editingUser.subscription_tier = "free") :
    (updateUserPatch editingUser now).subscription_end = none
    ∧ (mergedUser editingUser now).subscription_end = none := by
  constructor
  · simp [updateUserPatch, computeSubscriptionEnd, hf]
  · simp [mergedUser, computeSubscriptionEnd, hf]

/-- Witness for C5: switching a record that had an expiry to free clears it
in the submitted patch and in the cached record. -/
theorem updateUser_free_clears_expiry_witness :
    (updateUserPatch (sampleUser "a" "free" (some 99)) 5).subscription_end =
      none
    ∧ (mergedUser (sampleUser "a" "free" (some 99)) 5).subscription_end =
      none :=
  updateUser_free_clears_expiry (sampleUser "a" "free" (some 99)) 5 rfl

/-- C6: once the confirmed profile delete succeeds, the cached list is
filtered by identifier and a success toast fires, for every outcome of the
follow-up identity delete — its failure is neither surfaced nor rolled
back. -/
theorem deleteUser_ignores_identity_failure (authRes : CallResult)
    (id : String) (users : List User) :
    deleteUser true .ok authRes id users =
      (users.filter (fun user => user.id != id), some .success) := by
  cases authRes <;> rfl

/-- C7: a fetch that reports a backend error or throws leaves the cached list
exactly as it was and emits an error toast; a successful fetch replaces the
cached list with the server response. -/
theorem fetch_failure_preserves_cache (users : List User) (blogs : List Blog)
    (data : List User) (bdata : List Blog) :
    fetchUsers .backendError users = (users, true)
    ∧ fetchUsers .threw users = (users, true)
    ∧ fetchUsers (.success (some data)) users = (data, false)
    ∧ fetchBlogs .backendError blogs = (blogs, true)
    ∧ fetchBlogs .threw blogs = (blogs, true)
    ∧ fetchBlogs (.success (some bdata)) blogs = (bdata, false) :=
  ⟨rfl, rfl, rfl, rfl, rfl, rfl⟩

/-- C8: a create-account submission with blank (empty or whitespace-only)
email or password, and a create-post or edit-post submission with blank title
or content, stop at the validation gate: no backend request is built, so no
backend call is issued and no cached list is touched. -/
theorem validation_blocks_backend_call (newUser : NewUser)
    (newBlog : NewBlog) (editingBlog : Blog) :
    ((jsTrim newUser.email = "" ∨ jsTrim newUser.password = "") →
      createUserStep newUser = .validationError)
    ∧ ((jsTrim newBlog.title = "" ∨ jsTrim newBlog.content = "") →
      createBlog newBlog = none)
    ∧ ((jsTrim editingBlog.title = "" ∨ jsTrim editingBlog.content = "") →
      updateBlog editingBlog = none) := by
  refine ⟨?_, ?_, ?_⟩ <;> rintro (h | h)
  · simp [createUserStep, h]
  · simp [createUserStep, h]
  · simp [createBlog, h]
  · simp [createBlog, h]
  · simp [updateBlog, h]
  · simp [updateBlog, h]

/-- Witness for C8: a whitespace-only email blocks account creation, and a
whitespace-only title blocks post creation. -/
theorem validation_blocks_backend_call_witness :
    createUserStep { email := " ", password := "p", full_name := ""
                     subscription_tier := "free" } = .validationError
    ∧ createBlog { title := " ", content := "c", excerpt := ""
                   published := false } = none :=
  ⟨(validation_blocks_backend_call
        { email := " ", password := "p", full_name := ""
          subscription_tier := "free" }
        sampleNewBlog sampleEditBlog).1 (Or.inl (by decide)),
    (validation_blocks_backend_call
        { email := "e", password := "p", full_name := ""
          subscription_tier := "free" }
        { title := " ", content := "c", excerpt := "", published := false }
        sampleEditBlog).2.1 (Or.inl (by decide))⟩

/-- C9: the displayed revenue figure is 9 dollars per cached account whose
subscription tier is `premium`. -/
theorem totalRevenue_eq_nine_per_premium (users : List User) :
    totalRevenue users =
      9 * (users.filter
            (fun user => user.subscription_tier = "premium")).length := by
  simp [totalRevenue, premiumUsers, Nat.mul_comm]

/-- C10: a stored token whose value fails to parse is removed from local
storage and access is denied, rather than crashing or admitting. -/
theorem sessionCheck_parse_failure_removes_and_denies (now : Int) :
    sessionCheck (some none) now = .denyRemove :=
  rfl

end AdminDashboard
